import Mathlib

/-!
# Verification of the discreen recording pipeline

Shallow embedding of the recording-capture-to-durable-media pipeline of the
`discreen` screen-recording utility, translated from the TypeScript sources:

* `src/renderer` (`ScreenRecorderApp`, the revision whose stop path filters
  empty chunks and transcodes to MP4): chunk buffering (`ondataavailable`),
  the stop-triggered flush-and-validate logic of `doStopRecording`, and the
  renderer-side countdown.
* `src/main/recorder.ts` (`ScreenRecorder`): source negotiation
  (`getScreenSource`, `getAudioSource`), the `startRecording` / `stopRecording`
  state machine on the `isRecording` flag, and `cancelDelay`.
* `src/main/main.ts` (the ffmpeg-transcoding revision): the
  `start-recording` / `stop-recording` IPC handlers with the pre-roll delay,
  and the `save-video` handler (write, size check, audio probe, transcode,
  fallback).

External calls (filesystem, ffmpeg/ffprobe, desktopCapturer enumeration) are
modelled as environment parameters; side effects are collected in explicit
effect traces so that "step X was / was not attempted" is statable.
-/

set_option maxRecDepth 8000

/-- A chunk / buffer of bytes (a `Blob`'s contents); `size` is the length. -/
abbrev Blob := List Nat

namespace Renderer

/-- Errors thrown by the flush-and-validate block of
`ScreenRecorderApp.doStopRecording` (the two `throw new Error(...)` sites). -/
inductive FlushError where
  | noVideoData
  | emptyVideo
  deriving Repr, DecidableEq

/-- Message of each flush error, as in the source. -/
def FlushError.message : FlushError → String
  | .noVideoData => "No video data recorded - try recording for at least 2-3 seconds"
  | .emptyVideo => "Recorded video is empty (no data in chunks)"

/-- `this.recordedChunks.filter(chunk => chunk.size > 0)` in `doStopRecording`. -/
def nonEmptyChunks (chunks : List Blob) : List Blob :=
  chunks.filter (fun c => 0 < c.length)

/-- The flush-and-validate core of `ScreenRecorderApp.doStopRecording`
(`onstop` callback): filter out empty chunks, fail if none remain, build the
blob by concatenation, fail if the blob or the summed size is zero, otherwise
return the concatenated buffer. -/
def flushValidate (chunks : List Blob) : Except FlushError Blob :=
  let ne := nonEmptyChunks chunks
  if ne.length = 0 then
    .error .noVideoData
  else
    let totalSize := (ne.map List.length).sum
    let blob := ne.flatten
    if blob.length = 0 ∨ totalSize = 0 then
      .error .emptyVideo
    else
      .ok blob

/-- Renderer-side state of `ScreenRecorderApp` (the fields the pipeline
touches: the recording flag, the ordered chunk buffer, and whether the
`MediaRecorder` and the `MediaStream` are present). -/
structure AppState where
  isRecording : Bool
  recordedChunks : List Blob
  hasMediaRecorder : Bool
  hasStream : Bool
  deriving Repr, DecidableEq

/-- The `ondataavailable` handler installed by `doStartRecording`:
`if (event.data) { this.recordedChunks.push(event.data); }` — every non-null
chunk, empty ones included, is appended; nothing else changes. -/
def ondataavailable (st : AppState) (data : Option Blob) : AppState :=
  match data with
  | some chunk => { st with recordedChunks := st.recordedChunks ++ [chunk] }
  | none => st

/-- Observable side effects of the renderer's stop path. -/
inductive AppEffect where
  | saveVideoCall (buffer : Blob)
  | statusUpdate (text : String) (recording : Bool)
  deriving Repr, DecidableEq

/-- The `onstop` callback body of `doStopRecording`: stop the stream, run
flush-and-validate; on success call `saveVideo` with the blob and report
status; on any thrown error report the error status; either way reset the
recording fields. `saveOk` is the `result.success` of the `save-video` IPC
round trip. -/
def onstopHandler (st : AppState) (saveOk : Bool) : AppState × List AppEffect :=
  let reset : AppState :=
    { isRecording := false, recordedChunks := [], hasMediaRecorder := false,
      hasStream := false }
  match flushValidate st.recordedChunks with
  | .ok blob =>
      (reset,
       [.saveVideoCall blob,
        .statusUpdate (if saveOk then "Recording saved as MP4" else "Error saving recording")
          false])
  | .error e =>
      (reset, [.statusUpdate ("Error: " ++ e.message) false])

end Renderer

namespace MainProc

/-- One enumerated desktop capture source (`DesktopCapturerSource`; only the
`id` matters to the pipeline). -/
structure CaptureSource where
  id : String
  deriving Repr, DecidableEq

/-- `os.platform()` values the recorder distinguishes. -/
inductive Platform where
  | win32
  | darwin
  | linux
  deriving Repr, DecidableEq

/-- Environment of one recorder call: the OS platform and the results of the
two external `desktopCapturer.getSources` enumerations — the one made by
`getScreenSource` and the (separate, possibly throwing) one made by
`getAudioSource`. -/
structure RecorderEnv where
  platform : Platform
  screenSources : List CaptureSource
  audioSources : Option (List CaptureSource)
  deriving Repr, DecidableEq

/-- `ScreenRecorder`'s mutable fields: the `isRecording` flag and the
`delayTimeout` handle (modelled by its nullness; nothing in the sources ever
assigns it a non-null value). -/
structure RecorderState where
  isRecording : Bool
  delayTimeout : Option Unit
  deriving Repr, DecidableEq

/-- Commands the main process sends to the renderer via `webContents.send`. -/
inductive IpcCmd where
  | startCmd (videoSourceId : String) (audioSourceId : Option String)
  | stopCmd
  deriving Repr, DecidableEq

/-- `ScreenRecorder.getScreenSource`: throw if the enumeration is empty,
otherwise return the first entry. -/
def getScreenSource (env : RecorderEnv) : Except String CaptureSource :=
  match env.screenSources with
  | [] => .error "No screen sources available"
  | s :: _ => .ok s

/-- `ScreenRecorder.getAudioSource`: only attempted on Windows; any
enumeration failure (`audioSources = none`) is caught and absorbed; returns
the first source if any, else null. -/
def getAudioSource (env : RecorderEnv) : Option CaptureSource :=
  if env.platform = .win32 then
    match env.audioSources with
    | none => none
    | some [] => none
    | some (s :: _) => some s
  else
    none

/-- `audioSource?.id || null` (a falsy — empty — id also becomes null). -/
def audioIdOrNull : Option CaptureSource → Option String
  | none => none
  | some s => if s.id = "" then none else some s.id

/-- `ScreenRecorder.startRecording`: reject when already recording; obtain the
video source (propagating its failure); best-effort audio source; send the
start command to the renderer; only then set `isRecording`. Returns the
result, the new recorder state, and the commands sent. -/
def startRecording (env : RecorderEnv) (st : RecorderState) :
    Except String String × RecorderState × List IpcCmd :=
  if st.isRecording then
    (.error "Recording is already in progress", st, [])
  else
    match getScreenSource env with
    | .error e => (.error e, st, [])
    | .ok videoSource =>
        let audioSource := getAudioSource env
        (.ok "Recording started", { st with isRecording := true },
         [.startCmd videoSource.id (audioIdOrNull audioSource)])

/-- `ScreenRecorder.stopRecording`: reject when not recording; otherwise send
the stop command and clear the flag. -/
def stopRecording (st : RecorderState) :
    Except String Unit × RecorderState × List IpcCmd :=
  if !st.isRecording then
    (.error "No recording in progress", st, [])
  else
    (.ok (), { st with isRecording := false }, [.stopCmd])

/-- `ScreenRecorder.getRecordingStatus`. -/
def getRecordingStatus (st : RecorderState) : Bool :=
  st.isRecording

/-- `ScreenRecorder.cancelDelay`: clears `delayTimeout` when set. (No call
site exists in the repository, and no code assigns `delayTimeout`.) -/
def cancelDelay (st : RecorderState) : RecorderState :=
  match st.delayTimeout with
  | some _ => { st with delayTimeout := none }
  | none => st

/-- Main-process state relevant to the `start-recording` / `stop-recording`
IPC handlers: the configured delay setting, the shared recorder, the number of
start-handler continuations currently suspended on their pre-roll
`setTimeout`, and the commands sent to the renderer so far. -/
structure MainState where
  delaySetting : Nat
  recorder : RecorderState
  pendingStarts : Nat
  sentCmds : List IpcCmd
  deriving Repr, DecidableEq

/-- The tail of the `start-recording` handler after the delay has elapsed:
`await recorder.startRecording(mainWindow)` (errors are caught and reported
as the response). -/
def runStartBody (env : RecorderEnv) (st : MainState) : MainState :=
  let r := startRecording env st.recorder
  { st with recorder := r.2.1, sentCmds := st.sentCmds ++ r.2.2 }

/-- Events on the main process's single-threaded loop. -/
inductive MainEvent where
  | startRequest
  | stopRequest
  | delayElapsed
  deriving Repr, DecidableEq

/-- One event step of the main process, from the `ipcMain.handle` bodies in
`main.ts`: a `start-recording` request with a positive configured delay merely
suspends on an anonymous `setTimeout` promise (a pending start); a firing
timer resumes that suspended handler, which then calls
`recorder.startRecording`; a `stop-recording` request calls
`recorder.stopRecording` immediately and never touches the pending timer
(nothing in the handlers calls `cancelDelay`, and the `setTimeout` created
here is never stored in `delayTimeout`). -/
def handleEvent (env : RecorderEnv) (st : MainState) : MainEvent → MainState
  | .startRequest =>
      if 0 < st.delaySetting then
        { st with pendingStarts := st.pendingStarts + 1 }
      else
        runStartBody env st
  | .delayElapsed =>
      if 0 < st.pendingStarts then
        runStartBody env { st with pendingStarts := st.pendingStarts - 1 }
      else
        st
  | .stopRequest =>
      let r := stopRecording st.recorder
      { st with recorder := r.2.1, sentCmds := st.sentCmds ++ r.2.2 }

/-- Run a sequence of main-process events. -/
def runEvents (env : RecorderEnv) (st : MainState) (evs : List MainEvent) : MainState :=
  evs.foldl (handleEvent env) st

end MainProc

namespace SaveVideo

/-- One stream entry of an `ffprobe` report (only `codec_type` matters). -/
structure StreamInfo where
  codec_type : String
  deriving Repr, DecidableEq

/-- Outcome of the ffmpeg conversion, as the `error` / `end` handlers classify
it: completed; an error whose message contains `"ffmpeg"` or `"Invalid data"`
(swallowed — the promise resolves and the WebM file is kept); any other error
(the promise rejects). -/
inductive TranscodeOutcome where
  | completed
  | errFfmpegMatch
  | errOther
  deriving Repr, DecidableEq

/-- `true` when the conversion did not complete. -/
def transcodeFailed : TranscodeOutcome → Bool
  | .completed => false
  | .errFfmpegMatch => true
  | .errOther => true

/-- Environment of one `save-video` invocation: the configured save path; the
pre-existing state of the destination directory; the size `fs.statSync`
reports for the freshly written file; the `ffprobe` result (`none` = the probe
threw, `some none` = a report without a `streams` array, `some (some l)` = a
report with streams `l`); the conversion outcome; and whether a file exists at
the MP4 output path once the conversion promise has settled. -/
structure SaveEnv where
  savePath : String
  dirExists : Bool
  statSize : Nat
  probeReport : Option (Option (List StreamInfo))
  transcodeOutcome : TranscodeOutcome
  mp4Exists : Bool
  deriving Repr, DecidableEq

/-- `path.join(savePath, name)` (POSIX flavor suffices for the claims). -/
def pathJoin (dir name : String) : String :=
  dir ++ "/" ++ name

/-- First-occurrence replacement over character lists, the way JS
`String.prototype.replace` with a string pattern behaves. -/
def replaceFirstAux (pat rep : List Char) : List Char → List Char
  | [] => []
  | c :: rest =>
      if pat.isPrefixOf (c :: rest) then rep ++ (c :: rest).drop pat.length
      else c :: replaceFirstAux pat rep rest

/-- JS `s.replace(pat, rep)`: replaces only the first occurrence. -/
def replaceFirst (s pat rep : String) : String :=
  ⟨replaceFirstAux pat.data rep.data s.data⟩

/-- `filename.replace(".webm", ".mp4")`. -/
def mp4Filename (filename : String) : String :=
  replaceFirst filename ".webm" ".mp4"

/-- `hasAudio := probeData.streams?.some(s => s.codec_type === "audio") || false`,
with a probe failure caught and treated as no audio. -/
def computeHasAudio : Option (Option (List StreamInfo)) → Bool
  | none => false
  | some none => false
  | some (some streams) => streams.any (fun s => s.codec_type = "audio")

/-- The fixed video options of the conversion. -/
def baseOutputOptions : List String :=
  ["-c:v libx264", "-preset fast", "-crf 23", "-movflags +faststart"]

/-- The audio options pushed when an audio stream was detected. -/
def audioOutputOptions : List String :=
  ["-c:a aac", "-b:a 128k"]

/-- The `outputOptions` array handed to the ffmpeg command. -/
def buildOutputOptions (hasAudio : Bool) : List String :=
  baseOutputOptions ++ if hasAudio then audioOutputOptions else []

/-- External actions the `save-video` handler performs, in order. -/
inductive FsEffect where
  | mkdirRecursive (dir : String)
  | writeFile (path : String) (bytes : Blob)
  | statFile (path : String)
  | probeFile (path : String)
  | transcode (input output : String) (options : List String)
  | unlink (path : String)
  deriving Repr, DecidableEq

/-- Whether an effect is the audio probe. -/
def FsEffect.isProbeStep : FsEffect → Bool
  | .probeFile _ => true
  | _ => false

/-- Whether an effect is the ffmpeg conversion. -/
def FsEffect.isTranscodeStep : FsEffect → Bool
  | .transcode _ _ _ => true
  | _ => false

/-- The handler's IPC response: `{success: true, path}` or
`{success: false, error}`. -/
inductive SaveResult where
  | ok (path : String)
  | err (msg : String)
  deriving Repr, DecidableEq

/-- The `save-video` IPC handler (ffmpeg revision of `main.ts`): ensure the
directory, write the WebM file, re-read its size and fail with "WebM file is
empty" if zero; otherwise probe for audio, run the conversion with
audio-dependent options, and resolve the final path — MP4 if it exists after a
completed or ffmpeg-swallowed conversion (deleting the WebM only after a
completed one), the WebM path otherwise, including when the conversion
rejected and the surrounding catch answered with the WebM path. -/
def saveVideoHandler (env : SaveEnv) (buffer : Blob) (filename : String) :
    SaveResult × List FsEffect :=
  let webmPath := pathJoin env.savePath filename
  let fx0 := if env.dirExists then [] else [FsEffect.mkdirRecursive env.savePath]
  let fx1 := fx0 ++ [.writeFile webmPath buffer, .statFile webmPath]
  if env.statSize = 0 then
    (.err "WebM file is empty", fx1)
  else
    let mp4Path := pathJoin env.savePath (mp4Filename filename)
    let opts := buildOutputOptions (computeHasAudio env.probeReport)
    let fx2 := fx1 ++ [.probeFile webmPath, .transcode webmPath mp4Path opts]
    match env.transcodeOutcome with
    | .completed =>
        let fx3 := fx2 ++ [.unlink webmPath]
        if env.mp4Exists then (.ok mp4Path, fx3) else (.ok webmPath, fx3)
    | .errFfmpegMatch =>
        if env.mp4Exists then (.ok mp4Path, fx2) else (.ok webmPath, fx2)
    | .errOther =>
        (.ok webmPath, fx2)

end SaveVideo

open Renderer MainProc SaveVideo

/-- If every non-empty chunk has positive length and one exists, the filtered
list is non-empty and its joined length is positive. -/
theorem nonEmptyChunks_flatten_length_pos (chunks : List Blob)
    (h : ∃ c ∈ chunks, 0 < c.length) :
    0 < (nonEmptyChunks chunks).flatten.length := by
  obtain ⟨c, hc, hlen⟩ := h
  have hmem : c ∈ nonEmptyChunks chunks := by
    simp [nonEmptyChunks, List.mem_filter, hc, hlen]
  rw [List.length_flatten]
  calc 0 < c.length := hlen
    _ ≤ ((nonEmptyChunks chunks).map List.length).sum :=
        List.single_le_sum (by intro x hx; exact Nat.zero_le x) _
          (List.mem_map_of_mem List.length hmem)

/-- C1 core: whenever some recorded chunk has nonzero length, flush-and-validate
succeeds and returns exactly the concatenation, in arrival order, of the
nonzero-length chunks. -/
theorem flushValidate_ok_of_some_nonempty (chunks : List Blob)
    (h : ∃ c ∈ chunks, 0 < c.length) :
    flushValidate chunks = .ok (nonEmptyChunks chunks).flatten := by
  have hpos := nonEmptyChunks_flatten_length_pos chunks h
  have hne : ¬ (nonEmptyChunks chunks).length = 0 := by
    intro h0
    rw [List.length_eq_zero] at h0
    rw [h0] at hpos
    simp at hpos
  have hblob : ¬ ((nonEmptyChunks chunks).flatten.length = 0 ∨
      ((nonEmptyChunks chunks).map List.length).sum = 0) := by
    rw [← List.length_flatten]
    omega
  simp only [flushValidate, if_neg hne, if_neg hblob]

/-- C1: for every sequence of recorded chunks in which at least one chunk has
nonzero length, the flush-and-validate step of `doStopRecording` succeeds and
produces the concatenation, in original arrival order, of exactly the
nonzero-length chunks. -/
theorem C1_flush_validate_concatenates_nonzero_chunks (chunks : List Blob)
    (h : ∃ c ∈ chunks, 0 < c.length) :
    flushValidate chunks = .ok (nonEmptyChunks chunks).flatten :=
  flushValidate_ok_of_some_nonempty chunks h

/-- C1 witness: chunks of sizes `[0, 500, 0, 300]` validate to an 800-byte
buffer, the 500-byte chunk preceding the 300-byte chunk. -/
theorem C1_flush_validate_concatenates_nonzero_chunks_witness :
    (∃ c ∈ ([[], List.replicate 500 1, [], List.replicate 300 2] : List Blob),
        0 < c.length) ∧
    flushValidate [[], List.replicate 500 1, [], List.replicate 300 2]
      = .ok (nonEmptyChunks [[], List.replicate 500 1, [], List.replicate 300 2]).flatten ∧
    (nonEmptyChunks [[], List.replicate 500 1, [], List.replicate 300 2]).flatten
      = List.replicate 500 1 ++ List.replicate 300 2 ∧
    (nonEmptyChunks [[], List.replicate 500 1, [], List.replicate 300 2]).flatten.length
      = 800 := by
  have hyp : ∃ c ∈ ([[], List.replicate 500 1, [], List.replicate 300 2] : List Blob),
      0 < c.length := by decide
  exact ⟨hyp, C1_flush_validate_concatenates_nonzero_chunks _ hyp, by decide, by decide⟩

/-- C4: for an empty or all-zero-length chunk sequence, flush-and-validate fails
with the "nothing was recorded" error, and the stop path issues no `saveVideo`
call for that session. -/
theorem C4_empty_recording_fails_without_persist (chunks : List Blob)
    (h : ∀ c ∈ chunks, c.length = 0) :
    flushValidate chunks = .error .noVideoData ∧
    ∀ (st : AppState) (saveOk : Bool), st.recordedChunks = chunks →
      ∀ b, AppEffect.saveVideoCall b ∉ (onstopHandler st saveOk).2 := by
  have hfilter : nonEmptyChunks chunks = [] := by
    rw [nonEmptyChunks, List.filter_eq_nil_iff]
    intro c hc
    simp [h c hc]
  have hflush : flushValidate chunks = .error .noVideoData := by
    simp [flushValidate, hfilter]
  refine ⟨hflush, ?_⟩
  intro st saveOk hst b
  simp [onstopHandler, hst, hflush]

/-- C4 witness: two zero-length chunks fail validation and trigger no
`saveVideo` call. -/
theorem C4_empty_recording_fails_without_persist_witness :
    flushValidate [[], []] = .error .noVideoData ∧
    ∀ b, AppEffect.saveVideoCall b ∉
      (onstopHandler ⟨true, [[], []], true, true⟩ true).2 := by
  have h := C4_empty_recording_fails_without_persist [[], []] (by decide)
  exact ⟨h.1, fun b => h.2 ⟨true, [[], []], true, true⟩ true rfl b⟩

/-- C9: during recording, every arriving chunk — zero-length included — is
appended to the ordered chunk buffer, and the append changes no other state
(no lifecycle change, no error). -/
theorem C9_every_chunk_appended_no_state_change (st : AppState) (chunk : Blob)
    (h : st.isRecording = true) :
    (ondataavailable st (some chunk)).recordedChunks = st.recordedChunks ++ [chunk] ∧
    (ondataavailable st (some chunk)).isRecording = st.isRecording ∧
    (ondataavailable st (some chunk)).hasMediaRecorder = st.hasMediaRecorder ∧
    (ondataavailable st (some chunk)).hasStream = st.hasStream := by
  simp [ondataavailable]

/-- C9 witness: a zero-length chunk arriving mid-recording is appended and the
lifecycle is untouched. -/
theorem C9_every_chunk_appended_no_state_change_witness :
    (ondataavailable ⟨true, [[5, 6]], true, true⟩ (some [])).recordedChunks
      = [[5, 6]] ++ [[]] ∧
    (ondataavailable ⟨true, [[5, 6]], true, true⟩ (some [])).isRecording = true := by
  have h := C9_every_chunk_appended_no_state_change ⟨true, [[5, 6]], true, true⟩ [] rfl
  exact ⟨h.1, h.2.1⟩

/-- C5: starting while the `isRecording` flag is set fails with the
already-recording error and leaves the flag set; stopping while it is clear
fails with the not-recording error and leaves it clear — so at most one
session records at a time. -/
theorem C5_start_stop_guards_preserve_flag (env : RecorderEnv)
    (st st' : RecorderState) (h : st.isRecording = true)
    (h' : st'.isRecording = false) :
    (startRecording env st).1 = .error "Recording is already in progress" ∧
    (startRecording env st).2.1.isRecording = true ∧
    (stopRecording st').1 = .error "No recording in progress" ∧
    (stopRecording st').2.1.isRecording = false := by
  simp [startRecording, stopRecording, h, h']

/-- C5 witness at concrete recorder states. -/
theorem C5_start_stop_guards_preserve_flag_witness :
    (startRecording ⟨.linux, [⟨"s1"⟩], some []⟩ ⟨true, none⟩).1
      = .error "Recording is already in progress" ∧
    (startRecording ⟨.linux, [⟨"s1"⟩], some []⟩ ⟨true, none⟩).2.1.isRecording = true ∧
    (stopRecording ⟨false, none⟩).1 = .error "No recording in progress" ∧
    (stopRecording ⟨false, none⟩).2.1.isRecording = false :=
  C5_start_stop_guards_preserve_flag ⟨.linux, [⟨"s1"⟩], some []⟩ ⟨true, none⟩
    ⟨false, none⟩ rfl rfl

/-- C8: `getScreenSource` fails — necessarily with the no-sources error — iff
the enumeration is empty, and otherwise returns the first enumerated entry. -/
theorem C8_first_source_or_no_source (env : RecorderEnv) :
    (getScreenSource env = .error "No screen sources available" ↔
      env.screenSources = []) ∧
    (∀ s rest, env.screenSources = s :: rest → getScreenSource env = .ok s) ∧
    (∀ m, getScreenSource env = .error m → m = "No screen sources available") := by
  rcases env with ⟨p, ss, as⟩
  cases ss <;> simp [getScreenSource]

/-- C8 witness: two enumerated screens yield the first. -/
theorem C8_first_source_or_no_source_witness :
    getScreenSource ⟨.darwin, [⟨"screenA"⟩, ⟨"screenB"⟩], some []⟩ = .ok ⟨"screenA"⟩ :=
  (C8_first_source_or_no_source ⟨.darwin, [⟨"screenA"⟩, ⟨"screenB"⟩], some []⟩).2.1
    ⟨"screenA"⟩ [⟨"screenB"⟩] rfl

/-- C10 (implicit): a failing `startRecording` call leaves the recorder state
(in particular the `isRecording` flag) unchanged and sends nothing; the flag
becomes newly true only when a video source was obtained (the first enumerated
screen) and the start command carrying its id was sent. -/
theorem C10_flag_set_only_after_source_and_command (env : RecorderEnv)
    (st : RecorderState) :
    (∀ e, (startRecording env st).1 = .error e →
      (startRecording env st).2.1 = st ∧ (startRecording env st).2.2 = []) ∧
    ((startRecording env st).2.1.isRecording = true → st.isRecording = false →
      ∃ s rest, env.screenSources = s :: rest ∧
        (startRecording env st).2.2
          = [.startCmd s.id (audioIdOrNull (getAudioSource env))]) := by
  rcases env with ⟨p, ss, as⟩
  rcases st with ⟨flag, dt⟩
  cases flag <;> cases ss <;>
    simp [startRecording, getScreenSource]

/-- C10 witness: with an empty enumeration and an idle recorder, the call
fails and the state is unchanged with no command sent. -/
theorem C10_flag_set_only_after_source_and_command_witness :
    (startRecording ⟨.win32, [], some []⟩ ⟨false, none⟩).2.1 = ⟨false, none⟩ ∧
    (startRecording ⟨.win32, [], some []⟩ ⟨false, none⟩).2.2 = [] :=
  (C10_flag_set_only_after_source_and_command ⟨.win32, [], some []⟩ ⟨false, none⟩).1
    "No screen sources available" rfl

/-- C6 (claim refuted by the code): with a configured delay of 3, a start
request followed by a stop request mid-countdown does *not* cancel the pending
countdown — the stop fails with the not-recording error (sending nothing), the
start continuation is still pending after the stop, and when the timer fires
the start command *is* issued to the renderer and the recorder ends up
recording. -/
theorem C6_stop_does_not_cancel_pending_countdown :
    (runEvents ⟨.linux, [⟨"screen1"⟩], some []⟩
        ⟨3, ⟨false, none⟩, 0, []⟩ [.startRequest, .stopRequest]).pendingStarts = 1 ∧
    (runEvents ⟨.linux, [⟨"screen1"⟩], some []⟩
        ⟨3, ⟨false, none⟩, 0, []⟩ [.startRequest, .stopRequest]).sentCmds = [] ∧
    (runEvents ⟨.linux, [⟨"screen1"⟩], some []⟩
        ⟨3, ⟨false, none⟩, 0, []⟩
        [.startRequest, .stopRequest, .delayElapsed]).sentCmds
      = [.startCmd "screen1" none] ∧
    (runEvents ⟨.linux, [⟨"screen1"⟩], some []⟩
        ⟨3, ⟨false, none⟩, 0, []⟩
        [.startRequest, .stopRequest, .delayElapsed]).recorder.isRecording = true := by
  refine ⟨rfl, rfl, ?_, rfl⟩
  decide

/-- C7: a zero re-read size after the WebM write makes the handler fail with
the "WebM file is empty" error; no probe and no transcode is attempted, and no
artifact path is returned. -/
theorem C7_zero_size_write_fails_before_probe_and_transcode (env : SaveEnv)
    (buffer : Blob) (filename : String) (h : env.statSize = 0) :
    (saveVideoHandler env buffer filename).1 = .err "WebM file is empty" ∧
    ∀ e ∈ (saveVideoHandler env buffer filename).2,
      e.isProbeStep = false ∧ e.isTranscodeStep = false := by
  rcases env with ⟨sp, de, ss, pr, tr, m4⟩
  simp only at h
  subst h
  constructor
  · cases de <;> simp [saveVideoHandler]
  · intro e he
    cases de <;> cases e <;>
      simp_all [saveVideoHandler, FsEffect.isProbeStep, FsEffect.isTranscodeStep]

/-- C7 witness: a concrete invocation whose re-read size is zero. -/
theorem C7_zero_size_write_fails_before_probe_and_transcode_witness :
    (saveVideoHandler ⟨"/videos", false, 0, none, .completed, false⟩
        [1, 2] "rec.webm").1 = .err "WebM file is empty" ∧
    ∀ e ∈ (saveVideoHandler ⟨"/videos", false, 0, none, .completed, false⟩
        [1, 2] "rec.webm").2,
      e.isProbeStep = false ∧ e.isTranscodeStep = false :=
  C7_zero_size_write_fails_before_probe_and_transcode
    ⟨"/videos", false, 0, none, .completed, false⟩ [1, 2] "rec.webm" rfl

/-- C3: whenever the written file is nonempty, the handler issues exactly the
transcode step whose options extend the fixed video options with the AAC audio
options precisely when the probe report contains an audio-typed stream; a
probe failure (or a report without streams) yields the video-only options and
the transcode step is still issued. -/
theorem C3_audio_options_iff_probe_found_audio (env : SaveEnv) (buffer : Blob)
    (filename : String) (h : ¬ env.statSize = 0) :
    FsEffect.transcode (pathJoin env.savePath filename)
        (pathJoin env.savePath (mp4Filename filename))
        (buildOutputOptions (computeHasAudio env.probeReport))
      ∈ (saveVideoHandler env buffer filename).2 ∧
    (("-c:a aac" ∈ buildOutputOptions (computeHasAudio env.probeReport) ∧
      "-b:a 128k" ∈ buildOutputOptions (computeHasAudio env.probeReport)) ↔
      ∃ streams, env.probeReport = some (some streams) ∧
        ∃ s ∈ streams, s.codec_type = "audio") := by
  constructor
  · rcases env with ⟨sp, de, ss, pr, tr, m4⟩
    cases tr <;> cases de <;> cases m4 <;>
      simp [saveVideoHandler, h]
  · rcases hpr : env.probeReport with _ | ⟨_ | streams⟩
    · simp [computeHasAudio, buildOutputOptions, baseOutputOptions, hpr]
    · simp [computeHasAudio, buildOutputOptions, baseOutputOptions, hpr]
    · simp only [hpr, computeHasAudio]
      rcases haud : streams.any (fun s => s.codec_type = "audio") with _ | _
      · rw [List.any_eq_false] at haud
        simp only [buildOutputOptions, baseOutputOptions, audioOutputOptions]
        constructor
        · intro hmem
          exfalso
          rcases hmem with ⟨hmem, _⟩
          simp at hmem
        · rintro ⟨st, hst, s, hs, hcodec⟩
          exfalso
          have hst2 : streams = st := by
            injection hst with h1
            injection h1
          subst hst2
          have := haud s hs
          simp [hcodec] at this
      · rw [List.any_eq_true] at haud
        simp only [buildOutputOptions, baseOutputOptions, audioOutputOptions]
        constructor
        · intro _
          refine ⟨streams, rfl, ?_⟩
          obtain ⟨s, hs, hcodec⟩ := haud
          exact ⟨s, hs, by simpa using hcodec⟩
        · intro _
          simp

/-- C3 witness: a failed probe still yields a transcode step, with the
video-only options. -/
theorem C3_audio_options_iff_probe_found_audio_witness :
    FsEffect.transcode (pathJoin "/videos" "rec.webm")
        (pathJoin "/videos" (mp4Filename "rec.webm"))
        (buildOutputOptions (computeHasAudio none))
      ∈ (saveVideoHandler ⟨"/videos", true, 9, none, .completed, true⟩
          [3] "rec.webm").2 ∧
    ¬ ("-c:a aac" ∈ buildOutputOptions (computeHasAudio none) ∧
       "-b:a 128k" ∈ buildOutputOptions (computeHasAudio none)) := by
  have h := C3_audio_options_iff_probe_found_audio
    ⟨"/videos", true, 9, none, .completed, true⟩ [3] "rec.webm" (by decide)
  refine ⟨h.1, fun hc => ?_⟩
  obtain ⟨streams, hstreams, -⟩ := h.2.mp hc
  exact Option.noConfusion hstreams

/-- C2 counterexample: with a nonzero written size, a conversion failing with
an ffmpeg-matched error while a file exists at the MP4 path makes the handler
return success with the *MP4* path, not the temporary WebM path as the claim
states. -/
theorem C2_counterexample_failed_transcode_returns_mp4_path :
    transcodeFailed TranscodeOutcome.errFfmpegMatch = true ∧
    ¬ (5 : Nat) = 0 ∧
    (saveVideoHandler ⟨"/videos", true, 5, some (some []), .errFfmpegMatch, true⟩
        [7] "rec.webm").1 = .ok "/videos/rec.mp4" ∧
    ¬ (saveVideoHandler ⟨"/videos", true, 5, some (some []), .errFfmpegMatch, true⟩
        [7] "rec.webm").1 = .ok "/videos/rec.webm" := by
  refine ⟨rfl, by decide, ?_, ?_⟩ <;> decide

/-- C2 (amended): with a nonzero written size, if the conversion fails or no
file exists at the MP4 path afterward, the handler still returns success,
never an error; the reported path is the temporary WebM path, except that a
conversion failing with an ffmpeg-matched error while the MP4 file exists
reports the MP4 path. -/
theorem C2_transcode_failure_still_succeeds (env : SaveEnv) (buffer : Blob)
    (filename : String) (h : ¬ env.statSize = 0)
    (hc : transcodeFailed env.transcodeOutcome = true ∨ env.mp4Exists = false) :
    (saveVideoHandler env buffer filename).1 =
      .ok (if env.transcodeOutcome = .errFfmpegMatch ∧ env.mp4Exists = true then
             pathJoin env.savePath (mp4Filename filename)
           else
             pathJoin env.savePath filename) := by
  rcases env with ⟨sp, de, ss, pr, tr, m4⟩
  simp only at h hc
  cases tr <;> cases m4 <;>
    simp_all [saveVideoHandler, transcodeFailed]

/-- C2 witness: a rejected conversion (non-ffmpeg error) still answers success
with the WebM path. -/
theorem C2_transcode_failure_still_succeeds_witness :
    (saveVideoHandler ⟨"/videos", true, 5, none, .errOther, true⟩
        [7] "rec.webm").1 = .ok "/videos/rec.webm" := by
  have h := C2_transcode_failure_still_succeeds
    ⟨"/videos", true, 5, none, .errOther, true⟩ [7] "rec.webm"
    (by decide) (Or.inl rfl)
  rw [h]
  decide
